import Mathlib

/-!
Verification of the Position & Risk Accounting Engine of the upbit trading
bot, following `trading_engine.py` (classes `RiskManager`, `OrderExecutor`),
`trading_bot.py` (`TradingBot.start` / `TradingBot.stop`) and `main.py`
(`SimpleTradingBot.start` / `SimpleTradingBot.stop`).

Monetary amounts are modelled as exact rationals (the Python code uses
binary floats on the same formulas); every definition mirrors one Python
function or inline block, field by field and branch by branch.
-/

/-- Structure `TradingConfig` from `config.py` (the fields the engine reads). -/
structure TradingConfig where
  initial_amount : ℚ
  max_daily_profit : ℚ
  max_daily_loss : ℚ
  max_positions : ℕ
  max_position_size : ℚ
  stop_loss_rate : ℚ
  compound_interest : Bool
  min_trade_amount : ℚ
  include_fees : Bool
  upbit_fee_rate : ℚ
  deriving Repr, DecidableEq

/-- The default values of `TradingConfig` in `config.py`. -/
def defaultConfig : TradingConfig :=
  { initial_amount := 1000000
    max_daily_profit := 1/2
    max_daily_loss := 3/100
    max_positions := 5
    max_position_size := 3/10
    stop_loss_rate := 1/50
    compound_interest := true
    min_trade_amount := 50000
    include_fees := true
    upbit_fee_rate := 1/2000 }

/-- A position dictionary as written by `OrderExecutor.execute_buy_order`.
The engine always writes the keys `avg_price`, `quantity`, `total_invested`,
`entry_time`, `last_buy_time`, `stop_loss` and `buy_orders`.  The keys
`entry_price` and `invested_amount` are deprecated (per `test_edge_cases.py`
they must not appear); `execute_sell_order` still reads them with
`dict.get`, so they are kept as `Option` fields (absent = `none`). -/
structure Position where
  avg_price : ℚ
  quantity : ℚ
  total_invested : ℚ
  entry_time : ℕ
  last_buy_time : ℕ
  stop_loss : ℚ
  buy_orders : List String
  entry_price_key : Option ℚ := none
  invested_amount_key : Option ℚ := none
  deriving Repr, DecidableEq

/-- The `positions` dict of `RiskManager`, as an association list. -/
abbrev Positions := List (String × Position)

/-- Lookup `positions.get(symbol)` / `symbol in positions`. -/
def findPos : Positions → String → Option Position
  | [], _ => none
  | (k, p) :: rest, s => if k = s then some p else findPos rest s

/-- Assignment `positions[symbol] = p` (overwrite or append). -/
def setPos : Positions → String → Position → Positions
  | [], s, p => [(s, p)]
  | (k, q) :: rest, s, p =>
      if k = s then (s, p) :: rest else (k, q) :: setPos rest s p

/-- Deletion `del positions[symbol]` (a Python dict holds each key at most once, so
dropping every binding of the key is the same operation). -/
def erasePos : Positions → String → Positions
  | [], _ => []
  | (k, q) :: rest, s => if k = s then erasePos rest s else (k, q) :: erasePos rest s

/-- The mutable state of `RiskManager` (`trading_engine.py`, `__init__`). -/
structure RiskState where
  daily_pnl : ℚ
  daily_trades : ℕ
  daily_invested_amount : ℚ
  daily_profit_amount : ℚ
  positions : Positions
  deriving Repr, DecidableEq

/-- A fresh `RiskManager` state. -/
def initialRiskState : RiskState :=
  { daily_pnl := 0, daily_trades := 0, daily_invested_amount := 0
    daily_profit_amount := 0, positions := [] }

/-- Constant `self.max_daily_trades = 100` in `RiskManager.__init__`. -/
def max_daily_trades : ℕ := 100

/-- The reason component of `RiskManager.check_daily_limits` (the Python
code returns formatted strings; only their kind matters). -/
inductive HaltReason where
  | profitTarget
  | lossLimit
  | tradeCount
  | normal
  deriving Repr, DecidableEq

/-- The `actual_daily_return` local of `RiskManager.check_daily_limits`:
`daily_profit_amount / daily_invested_amount` if the denominator is
positive, else `0.0`. -/
def actual_daily_return (st : RiskState) : ℚ :=
  if 0 < st.daily_invested_amount then
    st.daily_profit_amount / st.daily_invested_amount
  else 0

/-- Method `RiskManager.check_daily_limits` (`trading_engine.py` lines 446-461). -/
def check_daily_limits (cfg : TradingConfig) (st : RiskState) :
    Bool × HaltReason :=
  let ret := actual_daily_return st
  if cfg.max_daily_profit ≤ ret then (true, .profitTarget)
  else if ret ≤ -cfg.max_daily_loss then (true, .lossLimit)
  else if max_daily_trades ≤ st.daily_trades then (true, .tradeCount)
  else (false, .normal)

/-- Method `RiskManager.calculate_fees` (`trading_engine.py` lines 547-552). -/
def calculate_fees (cfg : TradingConfig) (amount : ℚ) : ℚ :=
  if cfg.include_fees then amount * cfg.upbit_fee_rate else 0

/-- Method `RiskManager.calculate_position_size` (`trading_engine.py` lines
463-545), on the non-exceptional path.  `confidence = None` defaults to
`0.5` at the call boundary and is not modelled; the position count is
`len(self.positions)`. -/
def calculate_position_size (cfg : TradingConfig) (st : RiskState)
    (balance confidence : ℚ) : ℚ :=
  if balance ≤ 0 then 0
  else
    let max_usable_balance := min balance cfg.initial_amount
    if max_usable_balance < cfg.min_trade_amount then 0
    else
      let confidence_multiplier := 1/2 + confidence * (1/2)
      let position_count := st.positions.length
      if cfg.max_positions ≤ position_count then 0
      else
        let base1 : ℚ := if 2 ≤ position_count then (1/5) * (7/10) else 1/5
        let base2 : ℚ :=
          if cfg.compound_interest ∧ 0 < st.daily_profit_amount then
            base1 * (1 + min (st.daily_profit_amount / balance * (1/10)) (1/20))
          else base1
        let size0 := max_usable_balance * base2 * confidence_multiplier
        let max_position_value := max_usable_balance * cfg.max_position_size
        let size1 := min size0 max_position_value
        if size1 < cfg.min_trade_amount then 0 else size1

/-- Side of a `TradeResult`. -/
inductive Side where
  | buy
  | sell
  deriving Repr, DecidableEq

/-- The `TradeResult` dataclass from `config.py` (timestamp and string
metadata other than the id omitted; they carry no accounting content). -/
structure TradeResult where
  id : String
  symbol : String
  side : Side
  quantity : ℚ
  price : ℚ
  amount : ℚ
  fee : ℚ
  invested_amount : ℚ
  profit_amount : ℚ
  profit_rate : ℚ
  portfolio_value_before : ℚ := 0
  portfolio_value_after : ℚ := 0
  deriving Repr, DecidableEq

/-- Method `RiskManager.update_pnl` (`trading_engine.py` lines 554-574). -/
def update_pnl (st : RiskState) (tr : TradeResult) : RiskState :=
  let st1 :=
    if tr.side = Side.sell ∧ 0 < tr.invested_amount then
      let newProfit := st.daily_profit_amount + tr.profit_amount
      let newInvested := st.daily_invested_amount + tr.invested_amount
      { st with
        daily_profit_amount := newProfit
        daily_invested_amount := newInvested
        daily_pnl := if 0 < newInvested then newProfit / newInvested
                     else st.daily_pnl }
    else if tr.side = Side.buy then
      { st with daily_invested_amount :=
          st.daily_invested_amount + tr.invested_amount }
    else st
  { st1 with daily_trades := st1.daily_trades + 1 }

/-- Method `RiskManager.reset_daily` (`trading_engine.py` lines 576-583). -/
def reset_daily (st : RiskState) : RiskState :=
  { st with daily_pnl := 0, daily_trades := 0
            daily_invested_amount := 0, daily_profit_amount := 0 }

/-- A buy signal as read by `execute_buy_order` (`symbol`, `confidence`,
`price`; the strategy tags carry no accounting content). -/
structure BuySignal where
  symbol : String
  confidence : ℚ
  price : ℚ
  deriving Repr, DecidableEq

/-- A sell signal as read by `execute_sell_order`. -/
structure SellSignal where
  symbol : String
  price : ℚ
  deriving Repr, DecidableEq

/-- The merged position dict built inline in `execute_buy_order`
(`trading_engine.py` lines 732-750) when the symbol already has a
position. -/
def merged_position (cfg : TradingConfig) (existing : Position)
    (quantity position_size : ℚ) (uuid : String) (now : ℕ) : Position :=
  let new_total_quantity := existing.quantity + quantity
  let new_total_invested := existing.total_invested + position_size
  let new_avg_price := new_total_invested / new_total_quantity
  { avg_price := new_avg_price
    quantity := new_total_quantity
    total_invested := new_total_invested
    entry_time := existing.entry_time
    last_buy_time := now
    stop_loss := new_avg_price * (1 - cfg.stop_loss_rate)
    buy_orders := existing.buy_orders ++ [uuid] }

/-- The fresh position dict built inline in `execute_buy_order`
(`trading_engine.py` lines 756-765). -/
def fresh_position (cfg : TradingConfig) (price quantity position_size : ℚ)
    (uuid : String) (now : ℕ) : Position :=
  { avg_price := price
    quantity := quantity
    total_invested := position_size
    entry_time := now
    last_buy_time := now
    stop_loss := price * (1 - cfg.stop_loss_rate)
    buy_orders := [uuid] }

/-- Method `OrderExecutor.execute_buy_order` (`trading_engine.py` lines 667-777).
External reads are parameters: `krw_balance` (exchange balance),
`portfolio_before` (portfolio value), `order_uuid` (the uuid of the market
buy order, `none` when the exchange call fails or returns no fill), `now`
(wall clock).  Returns the `TradeResult` (or `none`) and the resulting
`RiskManager` state. -/
def execute_buy_order (cfg : TradingConfig) (st : RiskState)
    (sig : BuySignal) (krw_balance portfolio_before : ℚ)
    (order_uuid : Option String) (now : ℕ) :
    Option TradeResult × RiskState :=
  if sig.symbol = "" ∨ sig.price = 0 then (none, st)
  else if krw_balance < cfg.min_trade_amount then (none, st)
  else
    let position_size := calculate_position_size cfg st krw_balance sig.confidence
    if position_size < cfg.min_trade_amount then (none, st)
    else
      let fee := calculate_fees cfg position_size
      let actual_buy_amount := position_size - fee
      let quantity := actual_buy_amount / sig.price
      match order_uuid with
      | none => (none, st)
      | some uuid =>
        let tr : TradeResult :=
          { id := uuid, symbol := sig.symbol, side := Side.buy
            quantity := quantity, price := sig.price
            amount := position_size, fee := fee
            invested_amount := position_size
            profit_amount := 0, profit_rate := 0
            portfolio_value_before := portfolio_before
            portfolio_value_after := portfolio_before - position_size }
        let newPositions :=
          match findPos st.positions sig.symbol with
          | some existing =>
              setPos st.positions sig.symbol
                (merged_position cfg existing quantity position_size uuid now)
          | none =>
              setPos st.positions sig.symbol
                (fresh_position cfg sig.price quantity position_size uuid now)
        (some tr, update_pnl { st with positions := newPositions } tr)

/-- Method `OrderExecutor.execute_sell_order` (`trading_engine.py` lines 779-901).
External reads are parameters: `coin_balance` (actual held quantity from
the exchange), `portfolio_before`, `order_uuid` (uuid of the market sell
order, `none` on failure/no fill). -/
def execute_sell_order (cfg : TradingConfig) (st : RiskState)
    (sig : SellSignal) (coin_balance portfolio_before : ℚ)
    (order_uuid : Option String) : Option TradeResult × RiskState :=
  if sig.symbol = "" ∨ sig.price = 0 then (none, st)
  else
    match findPos st.positions sig.symbol with
    | none => (none, st)
    | some position =>
      if coin_balance ≤ 0 then (none, st)
      else
        -- invested_amount = position.get('invested_amount', 0):
        -- a deprecated key, absent from engine-written positions.
        let invested_amount := position.invested_amount_key.getD 0
        match order_uuid with
        | none => (none, st)
        | some uuid =>
          let gross_amount := coin_balance * sig.price
          let fee := calculate_fees cfg gross_amount
          let net_amount := gross_amount - fee
          -- position.get('total_invested', invested_amount) /
          -- position.get('quantity', coin_balance): keys always present.
          let actual_invested := position.total_invested
          let actual_quantity := position.quantity
          let proportional_invested :=
            if coin_balance < actual_quantity then
              actual_invested * (coin_balance / actual_quantity)
            else actual_invested
          let profit_amount := net_amount - proportional_invested
          let raw_profit_rate :=
            if 0 < proportional_invested then profit_amount / proportional_invested
            else 0
          let profit_rate :=
            if 10 < |raw_profit_rate| then
              (sig.price - position.avg_price) / position.avg_price
            else raw_profit_rate
          let tr : TradeResult :=
            { id := uuid, symbol := sig.symbol, side := Side.sell
              quantity := coin_balance, price := sig.price
              amount := gross_amount, fee := fee
              invested_amount := invested_amount
              profit_amount := profit_amount
              profit_rate := profit_rate
              portfolio_value_before := portfolio_before
              portfolio_value_after := portfolio_before + profit_amount }
          let st1 := { st with positions := erasePos st.positions sig.symbol }
          (some tr, update_pnl st1 tr)

/-- One entry of the exchange `get_balances()` answer. -/
structure BalanceEntry where
  currency : String
  amount : ℚ
  deriving Repr, DecidableEq

/-- Outcome of the per-symbol work inside `emergency_sell_all`: a filled
sell order (`ok` with uuid and the fetched current price), an order answer
without a uuid (`noFill`), or an exception during the price fetch or order
call (`exn`, caught and logged by the per-symbol handler). -/
inductive SellOutcome where
  | ok (uuid : String) (price : ℚ)
  | noFill
  | exn
  deriving Repr, DecidableEq

/-- The `TradeResult` built for one successful liquidation inside
`emergency_sell_all` (`trading_engine.py` lines 955-978). -/
def emergency_record (cfg : TradingConfig) (st : RiskState)
    (b : BalanceEntry) (uuid : String) (price : ℚ) : TradeResult :=
  let symbol := "KRW-" ++ b.currency
  let sell_amount := b.amount * price
  let fee := calculate_fees cfg sell_amount
  -- invested_amount = 0, overwritten by
  -- positions[symbol].get('invested_amount', sell_amount) when the symbol
  -- has a position ('invested_amount' is a deprecated key, so the default
  -- sell_amount is what is found for engine-written positions).
  let invested_amount :=
    match findPos st.positions symbol with
    | some p => p.invested_amount_key.getD sell_amount
    | none => 0
  { id := uuid, symbol := symbol, side := Side.sell
    quantity := b.amount, price := price
    amount := sell_amount, fee := fee
    invested_amount := invested_amount
    profit_amount := sell_amount - fee - invested_amount
    profit_rate :=
      if 0 < invested_amount then
        (sell_amount - fee - invested_amount) / invested_amount
      else 0 }

/-- The per-balance-entry step of `emergency_sell_all`'s loop: appends a
record on a filled order, skips KRW, zero balances, unfilled orders and
per-symbol exceptions. -/
def emergency_step (cfg : TradingConfig) (st : RiskState)
    (outcome : String → SellOutcome) (acc : List TradeResult)
    (b : BalanceEntry) : List TradeResult :=
  if b.currency ≠ "KRW" ∧ 0 < b.amount then
    match outcome b.currency with
    | SellOutcome.ok uuid price => acc ++ [emergency_record cfg st b uuid price]
    | SellOutcome.noFill => acc
    | SellOutcome.exn => acc
  else acc

/-- Method `OrderExecutor.emergency_sell_all` (`trading_engine.py` lines 931-995).
`balances` is the exchange `get_balances()` answer and `outcome` the result
of the price fetch + market sell for each currency.  After the loop the
code runs `self.risk_manager.positions.clear()`. -/
def emergency_sell_all (cfg : TradingConfig) (st : RiskState)
    (balances : List BalanceEntry) (outcome : String → SellOutcome) :
    List TradeResult × RiskState :=
  let results := balances.foldl (emergency_step cfg st outcome) []
  (results, { st with positions := [] })

/-- The lifecycle flags shared by `TradingBot` (`trading_bot.py`) and
`SimpleTradingBot` (`main.py`). -/
structure BotState where
  is_running : Bool
  is_paused : Bool
  deriving Repr, DecidableEq

/-- Method `TradingBot.start` (`trading_bot.py` lines 72-108): refuses when
already running, else requires the API connection test and the fund-safety
validation (external checks, passed as flags) before switching to
running. -/
def TradingBot_start (st : BotState) (api_ok funds_ok : Bool) :
    Bool × BotState :=
  if st.is_running then (false, st)
  else if ¬api_ok then (false, st)
  else if ¬funds_ok then (false, st)
  else (true, { is_running := true, is_paused := false })

/-- Method `TradingBot.stop` (`trading_bot.py` lines 110-124). -/
def TradingBot_stop (st : BotState) : Bool × BotState :=
  if ¬st.is_running then (false, st)
  else (true, { st with is_running := false })

/-- The entry of `SimpleTradingBot.start` (`main.py` lines 50-69) up to the
trading loop: no already-running check; on passing fund validation it sets
the flags and enters the loop (the returned `Bool` is whether the loop was
entered). -/
def SimpleTradingBot_start_enter (st : BotState) (funds_ok : Bool) :
    Bool × BotState :=
  if ¬funds_ok then (false, st)
  else (true, { is_running := true, is_paused := false })

/-- Method `SimpleTradingBot.stop` (`main.py` lines 71-75): unconditionally clears
the flags and returns `True`. -/
def SimpleTradingBot_stop (_st : BotState) : Bool × BotState :=
  (true, { is_running := false, is_paused := false })

/-! ## Helper lemmas about the embedded containers -/

theorem findPos_setPos_same (l : Positions) (s : String) (p : Position) :
    findPos (setPos l s p) s = some p := by
  induction l with
  | nil => simp [setPos, findPos]
  | cons kv rest ih =>
      obtain ⟨k, q⟩ := kv
      by_cases h : k = s
      · simp [setPos, findPos, h]
      · simp [setPos, findPos, h, ih]

theorem findPos_erasePos_same (l : Positions) (s : String) :
    findPos (erasePos l s) s = none := by
  induction l with
  | nil => simp [erasePos, findPos]
  | cons kv rest ih =>
      obtain ⟨k, q⟩ := kv
      by_cases h : k = s
      · simp [erasePos, h, ih]
      · simp [erasePos, findPos, h, ih]

theorem update_pnl_positions (st : RiskState) (tr : TradeResult) :
    (update_pnl st tr).positions = st.positions := by
  unfold update_pnl
  split_ifs <;> rfl

/-! ## Shared concrete fixtures (the scenarios of the spec) -/

/-- The Scenario C position: avgPrice 50,000, quantity 0.2, totalInvested
10,000. -/
def posScenC : Position :=
  { avg_price := 50000, quantity := 1/5, total_invested := 10000
    entry_time := 0, last_buy_time := 0, stop_loss := 49000
    buy_orders := ["b0"] }

/-- Risk state holding the Scenario C position. -/
def stScenC : RiskState :=
  { initialRiskState with positions := [("KRW-BTC", posScenC)] }

/-- The Scenario A position: avgPrice 50,000, quantity 0.1, totalInvested
5,000. -/
def posScenA : Position :=
  { avg_price := 50000, quantity := 1/10, total_invested := 5000
    entry_time := 0, last_buy_time := 0, stop_loss := 49000
    buy_orders := ["b0"] }

/-- Risk state holding the Scenario A position. -/
def stScenA : RiskState :=
  { initialRiskState with positions := [("KRW-BTC", posScenA)] }

/-- A consistent tiny position (avgPrice 1, quantity 1, invested 1) whose
sale at price 100 drives the computed profit rate past the 1000% sanity
clamp. -/
def posTiny : Position :=
  { avg_price := 1, quantity := 1, total_invested := 1
    entry_time := 0, last_buy_time := 0, stop_loss := 49/50
    buy_orders := ["b0"] }

/-- Risk state holding the tiny position. -/
def stTiny : RiskState :=
  { initialRiskState with positions := [("KRW-BTC", posTiny)] }

/-- The Scenario E daily aggregates: 1,000,000 invested, 50,000 realized
loss. -/
def stScenE : RiskState :=
  { initialRiskState with
      daily_invested_amount := 1000000, daily_profit_amount := -50000 }

/-! ## C4 -/

theorem check_daily_limits_profit (cfg : TradingConfig) (st : RiskState)
    (h : cfg.max_daily_profit ≤ actual_daily_return st) :
    check_daily_limits cfg st = (true, HaltReason.profitTarget) := by
  unfold check_daily_limits
  rw [if_pos h]

theorem check_daily_limits_loss (cfg : TradingConfig) (st : RiskState)
    (h1 : ¬cfg.max_daily_profit ≤ actual_daily_return st)
    (h2 : actual_daily_return st ≤ -cfg.max_daily_loss) :
    check_daily_limits cfg st = (true, HaltReason.lossLimit) := by
  unfold check_daily_limits
  rw [if_neg h1, if_pos h2]

theorem check_daily_limits_trades (cfg : TradingConfig) (st : RiskState)
    (h1 : ¬cfg.max_daily_profit ≤ actual_daily_return st)
    (h2 : ¬actual_daily_return st ≤ -cfg.max_daily_loss)
    (h3 : max_daily_trades ≤ st.daily_trades) :
    check_daily_limits cfg st = (true, HaltReason.tradeCount) := by
  unfold check_daily_limits
  rw [if_neg h1, if_neg h2, if_pos h3]

theorem check_daily_limits_normal (cfg : TradingConfig) (st : RiskState)
    (h1 : ¬cfg.max_daily_profit ≤ actual_daily_return st)
    (h2 : ¬actual_daily_return st ≤ -cfg.max_daily_loss)
    (h3 : ¬max_daily_trades ≤ st.daily_trades) :
    check_daily_limits cfg st = (false, HaltReason.normal) := by
  unfold check_daily_limits
  rw [if_neg h1, if_neg h2, if_neg h3]

/-- C4: `check_daily_limits` computes
`actualReturn = dailyProfitAmount / dailyInvestedAmount` (0 when no
investment yet) and halts with the profit-target reason iff
`actualReturn ≥ maxDailyProfitRate`, otherwise with the loss-limit reason
iff `actualReturn ≤ -maxDailyLossRate`, otherwise with the trade-count
reason iff `dailyTradeCount ≥ 100`, and otherwise does not halt; on the
same state (no intervening fills) a second call returns the same pair. -/
theorem c4_check_daily_limits_spec (cfg : TradingConfig) (st : RiskState) :
    (0 < st.daily_invested_amount →
      actual_daily_return st = st.daily_profit_amount / st.daily_invested_amount) ∧
    (st.daily_invested_amount = 0 → actual_daily_return st = 0) ∧
    (check_daily_limits cfg st = (true, HaltReason.profitTarget) ↔
      cfg.max_daily_profit ≤ actual_daily_return st) ∧
    (check_daily_limits cfg st = (true, HaltReason.lossLimit) ↔
      ¬cfg.max_daily_profit ≤ actual_daily_return st ∧
        actual_daily_return st ≤ -cfg.max_daily_loss) ∧
    (check_daily_limits cfg st = (true, HaltReason.tradeCount) ↔
      ¬cfg.max_daily_profit ≤ actual_daily_return st ∧
        ¬actual_daily_return st ≤ -cfg.max_daily_loss ∧
        100 ≤ st.daily_trades) ∧
    ((check_daily_limits cfg st).1 = false ↔
      ¬cfg.max_daily_profit ≤ actual_daily_return st ∧
        ¬actual_daily_return st ≤ -cfg.max_daily_loss ∧
        st.daily_trades < 100) ∧
    check_daily_limits cfg st = check_daily_limits cfg st := by
  refine ⟨?_, ?_, ?_, ?_, ?_, ?_, rfl⟩
  · intro h
    simp [actual_daily_return, h]
  · intro h
    simp [actual_daily_return, h]
  all_goals
    by_cases hA : cfg.max_daily_profit ≤ actual_daily_return st
    case pos =>
      rw [check_daily_limits_profit cfg st hA]
      simp [hA]
    case neg =>
      by_cases hB : actual_daily_return st ≤ -cfg.max_daily_loss
      case pos =>
        rw [check_daily_limits_loss cfg st hA hB]
        simp [hA, hB]
      case neg =>
        by_cases hC : max_daily_trades ≤ st.daily_trades
        case pos =>
          rw [check_daily_limits_trades cfg st hA hB hC]
          unfold max_daily_trades at hC
          simp [hA, hB] <;> omega
        case neg =>
          rw [check_daily_limits_normal cfg st hA hB hC]
          unfold max_daily_trades at hC
          simp [hA, hB] <;> omega

/-- C4 witness: Scenario E (1,000,000 invested, −50,000 realized, default
limits) halts with the loss-limit reason. -/
theorem c4_witness :
    check_daily_limits defaultConfig stScenE = (true, HaltReason.lossLimit) :=
  (c4_check_daily_limits_spec defaultConfig stScenE).2.2.2.1.mpr
    (by norm_num [actual_daily_return, stScenE, initialRiskState, defaultConfig])

/-! ## C10 -/

/-- C10 counterexample: `SimpleTradingBot.stop` called in the `Stopped`
state returns `True`, not the `false` the claim requires. -/
theorem c10_counterexample :
    SimpleTradingBot_stop ⟨false, false⟩ =
      (true, ⟨false, false⟩) ∧ (true : Bool) ≠ false := by
  constructor
  · rfl
  · decide

/-- C10 amended: `TradingBot.start` fails (returns `false`, state
unchanged) whenever `is_running` is set — i.e. from `Running` and from
`Paused` — and `TradingBot.stop` from `Stopped` is a no-op returning
`false`; but `SimpleTradingBot` has neither guard: its `stop` always
returns `true` (also from `Stopped`) and its `start` enters the trading
loop regardless of the current state once fund validation passes. -/
theorem c10_lifecycle (st : BotState) (api_ok funds_ok : Bool) :
    (st.is_running = true → TradingBot_start st api_ok funds_ok = (false, st)) ∧
    (st.is_running = false → TradingBot_stop st = (false, st)) ∧
    SimpleTradingBot_stop st = (true, ⟨false, false⟩) ∧
    SimpleTradingBot_start_enter st true = (true, ⟨true, false⟩) := by
  refine ⟨?_, ?_, rfl, rfl⟩
  · intro h
    simp [TradingBot_start, h]
  · intro h
    simp [TradingBot_stop, h]

/-- C10 witness: from the `Paused` state (`is_running`, `is_paused` both
set) `TradingBot.start` returns `false` and leaves the state unchanged. -/
theorem c10_witness :
    TradingBot_start ⟨true, true⟩ true true = (false, ⟨true, true⟩) :=
  (c10_lifecycle ⟨true, true⟩ true true).1 rfl

/-! ## C5 -/

/-- C5 counterexample: default config (initialAmount 1,000,000), available
balance 2,000,000, empty book, confidence 1.  The claim's formula gives
`min(2,000,000·0.2·1, 2,000,000·0.3) = 400,000`, but the code first caps
the usable balance at `initial_amount` and returns 200,000. -/
theorem c5_counterexample :
    calculate_position_size defaultConfig initialRiskState 2000000 1 = 200000 ∧
    min ((2000000 : ℚ) * (1/5) * (1/2 + 1 * (1/2))) (2000000 * (3/10)) = 400000 ∧
    (200000 : ℚ) ≠ 400000 := by
  refine ⟨?_, by norm_num, by norm_num⟩
  norm_num [calculate_position_size, defaultConfig, initialRiskState]

/-- C5 amended: the sizing formula of the claim holds with the usable
balance `min(availableBalance, initialAmount)` in place of
`availableBalance` — both in the minimum-trade admission check and in the
two products — while the compound-interest scaling still divides by the
raw `availableBalance`; the position is 0 when the resulting size is below
`minTradeAmount`, and 0 whenever `availableBalance ≤ 0`,
`min(availableBalance, initialAmount) < minTradeAmount` or
`openPositionCount ≥ maxPositions`. -/
theorem c5_position_size_amended (cfg : TradingConfig) (st : RiskState)
    (balance confidence : ℚ)
    (hpos : 0 < balance)
    (husable : ¬min balance cfg.initial_amount < cfg.min_trade_amount)
    (hcount : st.positions.length < cfg.max_positions)
    (_hc0 : 0 ≤ confidence) (_hc1 : confidence ≤ 1) :
    calculate_position_size cfg st balance confidence =
      (let usable := min balance cfg.initial_amount
       let base : ℚ := if 2 ≤ st.positions.length then (1/5) * (7/10) else 1/5
       let base2 : ℚ :=
         if cfg.compound_interest ∧ 0 < st.daily_profit_amount then
           base * (1 + min (st.daily_profit_amount / balance * (1/10)) (1/20))
         else base
       let size := min (usable * base2 * (1/2 + confidence * (1/2)))
         (usable * cfg.max_position_size)
       if size < cfg.min_trade_amount then 0 else size) := by
  simp only [calculate_position_size]
  rw [if_neg (not_le.mpr hpos), if_neg husable, if_neg (not_le.mpr hcount)]

/-- C5 witness: default config, balance 1,000,000, empty book, confidence
0.5 → 1,000,000·0.2·0.75 = 150,000 (below the 300,000 cap, above the
50,000 floor). -/
theorem c5_witness :
    calculate_position_size defaultConfig initialRiskState 1000000 (1/2) =
      150000 := by
  have h := c5_position_size_amended defaultConfig initialRiskState 1000000 (1/2)
    (by norm_num) (by norm_num [defaultConfig])
    (by norm_num [initialRiskState, defaultConfig])
    (by norm_num) (by norm_num)
  rw [h]
  norm_num [defaultConfig, initialRiskState]

/-! ## C6 -/

/-- C6 counterexample: default config, balance 1,000,000, empty book.
Confidence 2 (out of range) yields 300,000, while the nearest in-range
confidence 1 yields 200,000 — so out-of-range values are not clamped. -/
theorem c6_counterexample :
    calculate_position_size defaultConfig initialRiskState 1000000 2 = 300000 ∧
    calculate_position_size defaultConfig initialRiskState 1000000 1 = 200000 ∧
    (300000 : ℚ) ≠ 200000 := by
  refine ⟨?_, ?_, by norm_num⟩ <;>
    norm_num [calculate_position_size, defaultConfig, initialRiskState]

/-- C6 amended: out-of-range confidence values are neither clamped nor
rejected: the raw value enters the multiplier `0.5 + confidence·0.5`
unchanged, and the result is only bounded by the `maxPositionSize` cap and
the `minTradeAmount` floor of the sizing formula. -/
theorem c6_confidence_unclamped (cfg : TradingConfig) (st : RiskState)
    (balance confidence : ℚ)
    (hpos : 0 < balance)
    (husable : ¬min balance cfg.initial_amount < cfg.min_trade_amount)
    (hcount : st.positions.length < cfg.max_positions)
    (_hout : confidence < 0 ∨ 1 < confidence) :
    calculate_position_size cfg st balance confidence =
      (let usable := min balance cfg.initial_amount
       let base : ℚ := if 2 ≤ st.positions.length then (1/5) * (7/10) else 1/5
       let base2 : ℚ :=
         if cfg.compound_interest ∧ 0 < st.daily_profit_amount then
           base * (1 + min (st.daily_profit_amount / balance * (1/10)) (1/20))
         else base
       let size := min (usable * base2 * (1/2 + confidence * (1/2)))
         (usable * cfg.max_position_size)
       if size < cfg.min_trade_amount then 0 else size) := by
  simp only [calculate_position_size]
  rw [if_neg (not_le.mpr hpos), if_neg husable, if_neg (not_le.mpr hcount)]

/-- C6 witness: confidence 2 on the default config (balance 1,000,000,
empty book) flows unclamped into the multiplier: the size is
min(1,000,000·0.2·1.5, 300,000) = 300,000. -/
theorem c6_witness :
    calculate_position_size defaultConfig initialRiskState 1000000 2 =
      300000 := by
  have h := c6_confidence_unclamped defaultConfig initialRiskState 1000000 2
    (by norm_num) (by norm_num [defaultConfig])
    (by norm_num [initialRiskState, defaultConfig])
    (Or.inr (by norm_num))
  rw [h]
  norm_num [defaultConfig, initialRiskState]

/-! ## C1 -/

/-- C1 counterexample: selling 0.1 of the Scenario C position (quantity
0.2) — a strict partial sell — leaves no position in the ledger: the claim
says the position stays with decremented quantity, but
`execute_sell_order` deletes it unconditionally. -/
theorem c1_counterexample :
    (1/10 : ℚ) < posScenC.quantity ∧
    findPos (execute_sell_order defaultConfig stScenC ⟨"KRW-BTC", 60000⟩
        (1/10) 0 (some "s1")).2.positions "KRW-BTC" = none := by
  constructor
  · norm_num [posScenC]
  · norm_num [execute_sell_order, stScenC, initialRiskState, posScenC,
      defaultConfig, findPos, erasePos, calculate_fees, update_pnl,
      abs_of_nonneg, (show ("KRW-BTC" : String) ≠ "" by decide)]

/-- C1 amended: every successful sell — partial or not — deletes the
position from the ledger; the proportional invested amount
`totalInvested·(sellQty/quantity)` is used in the profit computation when
the quantity sold is strictly below the ledger quantity, but the remaining
quantity and basis are discarded rather than kept. -/
theorem c1_sell_always_removes (cfg : TradingConfig) (st : RiskState)
    (sig : SellSignal) (coin_balance portfolio_before : ℚ) (uuid : String)
    (p : Position)
    (hfind : findPos st.positions sig.symbol = some p)
    (hsym : ¬sig.symbol = "") (hprice : ¬sig.price = 0)
    (hbal : ¬coin_balance ≤ 0) :
    findPos (execute_sell_order cfg st sig coin_balance portfolio_before
        (some uuid)).2.positions sig.symbol = none ∧
    ∃ tr, (execute_sell_order cfg st sig coin_balance portfolio_before
        (some uuid)).1 = some tr ∧
      tr.quantity = coin_balance ∧
      tr.profit_amount =
        coin_balance * sig.price - calculate_fees cfg (coin_balance * sig.price) -
          (if coin_balance < p.quantity then
            p.total_invested * (coin_balance / p.quantity)
          else p.total_invested) := by
  simp only [execute_sell_order, hfind]
  rw [if_neg (by simp [hsym, hprice]), if_neg hbal]
  constructor
  · rw [update_pnl_positions]
    exact findPos_erasePos_same _ _
  · exact ⟨_, rfl, rfl, rfl⟩

/-- C1 witness: Scenario C — sell 0.1 of the 0.2-quantity position at
60,000: the ledger entry is gone and the trade realizes
6,000 − 3 − 5,000 = 997 on the proportional basis 5,000. -/
theorem c1_witness :
    findPos (execute_sell_order defaultConfig stScenC ⟨"KRW-BTC", 60000⟩
        (1/10) 0 (some "s1")).2.positions "KRW-BTC" = none ∧
    ∃ tr, (execute_sell_order defaultConfig stScenC ⟨"KRW-BTC", 60000⟩
        (1/10) 0 (some "s1")).1 = some tr ∧
      tr.quantity = 1/10 ∧ tr.profit_amount = 997 := by
  obtain ⟨h1, tr, h2, h3, h4⟩ := c1_sell_always_removes defaultConfig stScenC
    ⟨"KRW-BTC", 60000⟩ (1/10) 0 "s1" posScenC
    (by simp [stScenC, initialRiskState, findPos])
    (by decide) (by norm_num) (by norm_num)
  refine ⟨h1, tr, h2, h3, ?_⟩
  rw [h4]
  norm_num [posScenC, calculate_fees, defaultConfig]

/-! ## C3 -/

/-- C3 counterexample: a consistent position (invested 1, quantity 1,
avgPrice 1) fully sold at price 100 under the default fee settings: the
claim's formula gives profitRate = 98.95, but the 1000% sanity clamp fires
and the code reports `(sellPrice − avgPrice)/avgPrice = 99`. -/
theorem c3_counterexample :
    ∃ tr, (execute_sell_order defaultConfig stTiny ⟨"KRW-BTC", 100⟩ 1 0
        (some "s1")).1 = some tr ∧
      tr.profit_amount = 1979/20 ∧
      tr.profit_amount / (posTiny.total_invested * (1 / posTiny.quantity)) =
        1979/20 ∧
      tr.profit_rate = 99 ∧
      (99 : ℚ) ≠ 1979/20 := by
  norm_num [execute_sell_order, stTiny, initialRiskState, posTiny,
    defaultConfig, findPos, calculate_fees, abs_of_nonneg,
    (show ("KRW-BTC" : String) ≠ "" by decide)]

/-- C3 amended: for a sell of `q ≤ Q` from a position with invested `I`
and quantity `Q > 0`, `profitAmount = q·price − grossFee − I·(q/Q)` and
`profitRate = profitAmount/(I·(q/Q))` (0 when the proportional basis is
not positive) — unless `|profitRate| > 10`, in which case the sanity clamp
reports `(price − avgPrice)/avgPrice` instead. -/
theorem c3_profit_and_rate (cfg : TradingConfig) (st : RiskState)
    (sig : SellSignal) (coin_balance portfolio_before : ℚ) (uuid : String)
    (p : Position)
    (hfind : findPos st.positions sig.symbol = some p)
    (hsym : ¬sig.symbol = "") (hprice : ¬sig.price = 0)
    (hbal : ¬coin_balance ≤ 0)
    (hQ : 0 < p.quantity) (hle : coin_balance ≤ p.quantity) :
    ∃ tr, (execute_sell_order cfg st sig coin_balance portfolio_before
        (some uuid)).1 = some tr ∧
      tr.profit_amount =
        coin_balance * sig.price - calculate_fees cfg (coin_balance * sig.price) -
          p.total_invested * (coin_balance / p.quantity) ∧
      tr.profit_rate =
        (let prop := p.total_invested * (coin_balance / p.quantity)
         let profit := coin_balance * sig.price -
           calculate_fees cfg (coin_balance * sig.price) - prop
         let raw := if 0 < prop then profit / prop else 0
         if 10 < |raw| then (sig.price - p.avg_price) / p.avg_price else raw) := by
  have hprop :
      (if coin_balance < p.quantity then
        p.total_invested * (coin_balance / p.quantity)
      else p.total_invested) =
        p.total_invested * (coin_balance / p.quantity) := by
    split_ifs with h
    · rfl
    · have he : coin_balance = p.quantity := le_antisymm hle (not_lt.mp h)
      rw [he, div_self hQ.ne', mul_one]
  simp only [execute_sell_order, hfind]
  rw [if_neg (by simp [hsym, hprice]), if_neg hbal]
  refine ⟨_, rfl, ?_, ?_⟩
  · simp only [hprop]
  · simp only [hprop]

/-- C3 witness: Scenario B — the Scenario A position (invested 5,000,
quantity 0.1) fully sold at 55,000: gross 5,500, fee 2.75, net 5,497.25,
profit 497.25, rate 0.09945 (clamp not triggered). -/
theorem c3_witness :
    ∃ tr, (execute_sell_order defaultConfig stScenA ⟨"KRW-BTC", 55000⟩
        (1/10) 0 (some "s1")).1 = some tr ∧
      tr.profit_amount = 1989/4 ∧ tr.profit_rate = 1989/20000 := by
  obtain ⟨tr, h1, h2, h3⟩ := c3_profit_and_rate defaultConfig stScenA
    ⟨"KRW-BTC", 55000⟩ (1/10) 0 "s1" posScenA
    (by simp [stScenA, initialRiskState, findPos])
    (by decide) (by norm_num) (by norm_num)
    (by norm_num [posScenA]) (by norm_num [posScenA])
  refine ⟨tr, h1, ?_, ?_⟩
  · rw [h2]
    norm_num [posScenA, calculate_fees, defaultConfig]
  · rw [h3]
    norm_num [posScenA, calculate_fees, defaultConfig, abs_of_nonneg]

/-! ## C2 -/

/-- C2 counterexample: the first buy under the default config (fees
included): fee 100 is taken out of the filled quantity but not out of
`total_invested`, so the stored `avg_price` 50,000 differs from
`totalInvested/quantity = 100,000,000/1999 ≈ 50,025.01` by far more than
any floating tolerance (relative error ≈ 5·10⁻⁴). -/
theorem c2_counterexample :
    ∃ p, findPos (execute_buy_order defaultConfig initialRiskState
        ⟨"KRW-BTC", 1, 50000⟩ 1000000 0 (some "b1") 0).2.positions
        "KRW-BTC" = some p ∧
      p.avg_price = 50000 ∧
      p.total_invested / p.quantity = 100000000/1999 ∧
      (1/1000000000 : ℚ) * p.avg_price <
        |p.total_invested / p.quantity - p.avg_price| := by
  norm_num [execute_buy_order, calculate_position_size, calculate_fees,
    fresh_position, setPos, findPos, update_pnl, defaultConfig,
    initialRiskState, abs_of_nonneg,
    (show ("KRW-BTC" : String) ≠ "" by decide)]

/-- C2 amended: after an averaging buy (a buy merged into an existing
position) `averagePrice = totalInvested/quantity` holds exactly; after a
first buy `averagePrice` is set to the fill price, which equals
`totalInvested/quantity` only when the fee is zero (`includeFees`
disabled) — with `includeFees` enabled the two differ by the fee factor.
(There is no partial-sell mutation: a sell always deletes the
position.) -/
theorem c2_avg_price_invariant (cfg : TradingConfig) (st : RiskState)
    (sig : BuySignal) (bal pb : ℚ) (uuid : String) (now : ℕ)
    (hsym : ¬sig.symbol = "") (hprice : ¬sig.price = 0)
    (hbal : ¬bal < cfg.min_trade_amount)
    (hsize : ¬calculate_position_size cfg st bal sig.confidence <
      cfg.min_trade_amount) :
    ∃ p, findPos (execute_buy_order cfg st sig bal pb (some uuid)
        now).2.positions sig.symbol = some p ∧
      ((∃ old, findPos st.positions sig.symbol = some old) →
        p.avg_price = p.total_invested / p.quantity) ∧
      (findPos st.positions sig.symbol = none → cfg.include_fees = false →
        0 < cfg.min_trade_amount →
        p.avg_price = p.total_invested / p.quantity) := by
  simp only [execute_buy_order]
  rw [if_neg (by simp [hsym, hprice]), if_neg hbal, if_neg hsize]
  cases hfp : findPos st.positions sig.symbol with
  | some old =>
      simp only [hfp, update_pnl_positions]
      refine ⟨_, findPos_setPos_same _ _ _, ?_, ?_⟩
      · exact fun _ => rfl
      · intro hnone
        exact absurd hnone (by simp)
  | none =>
      simp only [hfp, update_pnl_positions]
      refine ⟨_, findPos_setPos_same _ _ _, ?_, ?_⟩
      · rintro ⟨old, hold⟩
        exact absurd hold (by simp)
      · intro _ hfees hmt
        have hsz : 0 < calculate_position_size cfg st bal sig.confidence :=
          lt_of_lt_of_le hmt (not_lt.mp hsize)
        simp only [fresh_position, calculate_fees, hfees, Bool.false_eq_true,
          if_false, sub_zero]
        rw [div_div_eq_mul_div, eq_div_iff hsz.ne']
        ring

/-- The default config with `include_fees` disabled. -/
def noFeeConfig : TradingConfig := { defaultConfig with include_fees := false }

/-- C2 witness: a first buy with fees disabled (price 50,000, size
200,000): the stored position has avgPrice 50,000 = 200,000/4 =
totalInvested/quantity. -/
theorem c2_witness :
    ∃ p, findPos (execute_buy_order noFeeConfig initialRiskState
        ⟨"KRW-BTC", 1, 50000⟩ 1000000 0 (some "b1") 0).2.positions
        "KRW-BTC" = some p ∧
      p.avg_price = p.total_invested / p.quantity := by
  obtain ⟨p, h1, _, h3⟩ := c2_avg_price_invariant noFeeConfig initialRiskState
    ⟨"KRW-BTC", 1, 50000⟩ 1000000 0 "b1" 0
    (by decide) (by norm_num)
    (by norm_num [noFeeConfig, defaultConfig])
    (by norm_num [calculate_position_size, noFeeConfig, defaultConfig,
      initialRiskState])
  exact ⟨p, h1, h3 (by simp [initialRiskState, findPos]) rfl
    (by norm_num [noFeeConfig, defaultConfig])⟩

/-! ## C7 -/

/-- The risk state after a confirmed first buy of 200,000 KRW of BTC at
50,000 under the default config (fee 100, quantity 3.998). -/
def stAfterBuy : RiskState :=
  (execute_buy_order defaultConfig initialRiskState ⟨"KRW-BTC", 1, 50000⟩
    1000000 0 (some "b1") 0).2

/-- C7, the code bug evaluated: the buy leaves 200,000 daily invested and
profit 0; the subsequent confirmed full sell at 55,000 realizes
profit 19,780.055, yet its `TradeResult.invested_amount` is 0 (read from
the deprecated `invested_amount` position key, which never exists), so
`update_pnl` skips the sell branch entirely: `daily_profit_amount` stays 0
and `daily_invested_amount` stays 200,000 — only the trade count moves. -/
theorem c7_sell_profit_never_recorded :
    stAfterBuy.daily_invested_amount = 200000 ∧
    stAfterBuy.daily_trades = 1 ∧
    stAfterBuy.daily_profit_amount = 0 ∧
    ∃ tr, (execute_sell_order defaultConfig stAfterBuy ⟨"KRW-BTC", 55000⟩
        (1999/500) 0 (some "s1")).1 = some tr ∧
      tr.invested_amount = 0 ∧
      tr.profit_amount = 3956011/200 ∧
      (execute_sell_order defaultConfig stAfterBuy ⟨"KRW-BTC", 55000⟩
        (1999/500) 0 (some "s1")).2.daily_profit_amount = 0 ∧
      (execute_sell_order defaultConfig stAfterBuy ⟨"KRW-BTC", 55000⟩
        (1999/500) 0 (some "s1")).2.daily_invested_amount = 200000 ∧
      (execute_sell_order defaultConfig stAfterBuy ⟨"KRW-BTC", 55000⟩
        (1999/500) 0 (some "s1")).2.daily_trades = 2 := by
  norm_num [stAfterBuy, execute_buy_order, execute_sell_order,
    calculate_position_size, calculate_fees, fresh_position, setPos,
    findPos, erasePos, update_pnl, defaultConfig, initialRiskState,
    abs_of_nonneg, (show ("KRW-BTC" : String) ≠ "" by decide)]

/-! ## C8 -/

/-- C8: neither `execute_buy_order` nor `execute_sell_order` touches the
positions map or the daily counters unless the exchange call returned a
confirmed fill: with no fill (`none`) both return `(none, st)`, and
whenever no `TradeResult` is produced — fill missing or trade declined
before the call — the risk state is returned exactly as it was. -/
theorem c8_no_mutation_without_fill (cfg : TradingConfig) (st : RiskState)
    (bsig : BuySignal) (ssig : SellSignal) (bal coin_balance pb : ℚ)
    (now : ℕ) (r : Option String) :
    execute_buy_order cfg st bsig bal pb none now = (none, st) ∧
    execute_sell_order cfg st ssig coin_balance pb none = (none, st) ∧
    ((execute_buy_order cfg st bsig bal pb r now).1 = none →
      (execute_buy_order cfg st bsig bal pb r now).2 = st) ∧
    ((execute_sell_order cfg st ssig coin_balance pb r).1 = none →
      (execute_sell_order cfg st ssig coin_balance pb r).2 = st) := by
  refine ⟨?_, ?_, ?_, ?_⟩
  · simp only [execute_buy_order]
    split_ifs <;> rfl
  · simp only [execute_sell_order]
    cases hfp : findPos st.positions ssig.symbol <;>
      simp only [hfp] <;> split_ifs <;> rfl
  · simp only [execute_buy_order]
    cases r <;> split_ifs <;> simp
  · simp only [execute_sell_order]
    cases hfp : findPos st.positions ssig.symbol <;>
      simp only [hfp] <;> cases r <;> split_ifs <;> simp

/-- C8 witness: a buy attempt declined before the exchange call (balance 0
under the default config) leaves the risk state untouched. -/
theorem c8_witness :
    (execute_buy_order defaultConfig initialRiskState ⟨"KRW-BTC", 1, 50000⟩
      0 0 (some "u") 0).2 = initialRiskState := by
  refine (c8_no_mutation_without_fill defaultConfig initialRiskState
    ⟨"KRW-BTC", 1, 50000⟩ ⟨"KRW-BTC", 50000⟩ 0 0 0 0 (some "u")).2.2.1 ?_
  norm_num [execute_buy_order, defaultConfig, initialRiskState,
    (show ("KRW-BTC" : String) ≠ "" by decide)]

/-! ## C9 -/

/-- C9 counterexample: one BTC balance whose liquidation raises an
exception: no record is produced, yet `positions.clear()` still wipes the
ledger — the failed symbol loses its position. -/
theorem c9_counterexample :
    (emergency_sell_all defaultConfig stScenC [⟨"BTC", 1⟩]
        (fun _ => SellOutcome.exn)).1 = [] ∧
    (emergency_sell_all defaultConfig stScenC [⟨"BTC", 1⟩]
        (fun _ => SellOutcome.exn)).2.positions = [] ∧
    findPos stScenC.positions "KRW-BTC" = some posScenC := by
  refine ⟨?_, rfl, by simp [stScenC, initialRiskState, findPos]⟩
  simp [emergency_sell_all, emergency_step]

/-- The optional record contributed by one balance entry of
`emergency_sell_all`'s loop (a filled order appends one record; KRW, dust
and failures contribute nothing). -/
def emergency_opt_record (cfg : TradingConfig) (st : RiskState)
    (outcome : String → SellOutcome) (b : BalanceEntry) :
    Option TradeResult :=
  if b.currency ≠ "KRW" ∧ 0 < b.amount then
    match outcome b.currency with
    | SellOutcome.ok uuid price => some (emergency_record cfg st b uuid price)
    | SellOutcome.noFill => none
    | SellOutcome.exn => none
  else none

theorem emergency_step_eq (cfg : TradingConfig) (st : RiskState)
    (outcome : String → SellOutcome) (acc : List TradeResult)
    (b : BalanceEntry) :
    emergency_step cfg st outcome acc b =
      acc ++ (emergency_opt_record cfg st outcome b).toList := by
  unfold emergency_step emergency_opt_record
  split_ifs with h
  · cases outcome b.currency <;> simp
  · simp

theorem foldl_emergency_step (cfg : TradingConfig) (st : RiskState)
    (outcome : String → SellOutcome) :
    ∀ (bs : List BalanceEntry) (acc : List TradeResult),
      bs.foldl (emergency_step cfg st outcome) acc =
        acc ++ bs.filterMap (emergency_opt_record cfg st outcome) := by
  intro bs
  induction bs with
  | nil => intro acc; simp
  | cons b rest ih =>
      intro acc
      rw [List.foldl_cons, ih, emergency_step_eq]
      cases h : emergency_opt_record cfg st outcome b <;>
        simp [List.filterMap_cons, h]

/-- C9 amended: `emergency_sell_all` never aborts on a per-symbol failure
— the returned records are exactly one per balance entry whose sell
filled, later entries unaffected by earlier failures — but the ledger is
then cleared wholesale: every position is removed, including those of
symbols whose sell failed. -/
theorem c9_emergency_behaviour (cfg : TradingConfig) (st : RiskState)
    (balances : List BalanceEntry) (outcome : String → SellOutcome) :
    (emergency_sell_all cfg st balances outcome).1 =
      balances.filterMap (emergency_opt_record cfg st outcome) ∧
    (emergency_sell_all cfg st balances outcome).2.positions = [] := by
  constructor
  · unfold emergency_sell_all
    rw [foldl_emergency_step]
    simp
  · rfl
